import Mathlib

/-!
Verification of the `antidote` locking wrapper: `Mutex` and `RwLock` types
that expose the standard-library lock APIs but never surface a poisoned
(abandoned) state to callers.  The underlying `std::sync` primitives are
modelled by their observable state (the protected value together with the
poison flag), with current contention supplied as an explicit input to the
non-blocking operations; the wrapper functions are translated directly from
`src/lib.rs`.
-/

set_option autoImplicit false

namespace Antidote

/-- Model of `std::sync::PoisonError<G>`: the error tag a poisoned primitive
attaches to an otherwise-acquired guard; it carries that guard as payload. -/
structure PoisonError (G : Type) where
  guard : G

/-- `std::sync::PoisonError::into_inner`: extract the payload. -/
def PoisonError.intoInner {G : Type} (e : PoisonError G) : G :=
  e.guard

/-- `std::sync::LockResult<G> = Result<G, PoisonError<G>>`. -/
abbrev LockResult (G : Type) : Type :=
  Except (PoisonError G) G

/-- Model of `std::sync::TryLockError<G>`: either a poison report (still
carrying the acquired guard) or `WouldBlock` from current contention. -/
inductive SyncTryLockError (G : Type) where
  | poisoned : PoisonError G → SyncTryLockError G
  | wouldBlock : SyncTryLockError G

/-- `std::sync::TryLockResult<G>`. -/
abbrev SyncTryLockResult (G : Type) : Type :=
  Except (SyncTryLockError G) G

/-- `Result::unwrap_or_else(|e| e.into_inner())`: the recovery step the
wrapper applies at every acquisition site. -/
def unwrapOrElseIntoInner {G : Type} (r : LockResult G) : G :=
  match r with
  | .ok g => g
  | .error e => e.intoInner

/-- Observable state of a `std::sync::Mutex<T>`: the protected value and the
poison flag set when a holder panicked while holding the lock. -/
structure SyncMutex (T : Type) where
  data : T
  poisoned : Bool

/-- Model of `std::sync::MutexGuard<'a, T>`: the acquired reference to the
protected value, represented by that value. -/
structure SyncMutexGuard (T : Type) where
  value : T

/-- `std::sync::MutexGuard::deref`. -/
def SyncMutexGuard.deref {T : Type} (g : SyncMutexGuard T) : T :=
  g.value

/-- `std::sync::MutexGuard::deref_mut` (the same reference, write access). -/
def SyncMutexGuard.derefMut {T : Type} (g : SyncMutexGuard T) : T :=
  g.value

/-- `std::sync::Mutex::new`. -/
def SyncMutex.new {T : Type} (t : T) : SyncMutex T :=
  ⟨t, false⟩

/-- Outcome of `std::sync::Mutex::lock` once the calling thread has acquired
the lock: a clean guard, or a `PoisonError` carrying the guard. -/
def SyncMutex.lockResult {T : Type} (m : SyncMutex T) : LockResult (SyncMutexGuard T) :=
  if m.poisoned then .error ⟨⟨m.data⟩⟩ else .ok ⟨m.data⟩

/-- Outcome of `std::sync::Mutex::try_lock`; `held` records whether another
holder currently holds the lock (the contention input). -/
def SyncMutex.tryLockResult {T : Type} (m : SyncMutex T) (held : Bool) :
    SyncTryLockResult (SyncMutexGuard T) :=
  if held then .error .wouldBlock
  else if m.poisoned then .error (.poisoned ⟨⟨m.data⟩⟩)
  else .ok ⟨m.data⟩

/-- Outcome of `std::sync::Mutex::into_inner` (consumes the lock; no
contention is possible). -/
def SyncMutex.intoInnerResult {T : Type} (m : SyncMutex T) : LockResult T :=
  if m.poisoned then .error ⟨m.data⟩ else .ok m.data

/-- Outcome of `std::sync::Mutex::get_mut`: the exclusive borrow of the lock
rules out contention, so the result depends only on the poison flag. -/
def SyncMutex.getMutResult {T : Type} (m : SyncMutex T) : LockResult T :=
  if m.poisoned then .error ⟨m.data⟩ else .ok m.data

/-- `antidote::Mutex<T>`, a transparent wrapper: `pub struct Mutex<T>(sync::Mutex<T>)`. -/
structure Mutex (T : Type) where
  inner : SyncMutex T

/-- `antidote::MutexGuard<'a, T>`: `pub struct MutexGuard<'a, T>(sync::MutexGuard<'a, T>)`. -/
structure MutexGuard (T : Type) where
  inner : SyncMutexGuard T

/-- `antidote::TryLockError`: `pub struct TryLockError(())`. -/
structure TryLockError where
  payload : Unit

/-- `antidote::TryLockResult<T> = Result<T, TryLockError>`. -/
abbrev TryLockResult (G : Type) : Type :=
  Except TryLockError G

/-- `TryLockError`'s `Display` implementation: writes a fixed string,
ignoring the value. -/
def TryLockError.display (_ : TryLockError) : String :=
  "lock call failed because the operation would block"

/-- `Mutex::new`: `Mutex(sync::Mutex::new(t))`. -/
def Mutex.new {T : Type} (t : T) : Mutex T :=
  ⟨SyncMutex.new t⟩

/-- `Mutex::into_inner`: `self.0.into_inner().unwrap_or_else(|e| e.into_inner())`. -/
def Mutex.intoInner {T : Type} (m : Mutex T) : T :=
  unwrapOrElseIntoInner m.inner.intoInnerResult

/-- `Mutex::lock`: `MutexGuard(self.0.lock().unwrap_or_else(|e| e.into_inner()))`. -/
def Mutex.lock {T : Type} (m : Mutex T) : MutexGuard T :=
  ⟨unwrapOrElseIntoInner m.inner.lockResult⟩

/-- `Mutex::try_lock`: matches on the underlying `TryLockResult`, recovering
the guard from a poison report and mapping `WouldBlock` to `TryLockError(())`. -/
def Mutex.tryLock {T : Type} (m : Mutex T) (held : Bool) :
    TryLockResult (MutexGuard T) :=
  match m.inner.tryLockResult held with
  | .ok t => .ok ⟨t⟩
  | .error (.poisoned e) => .ok ⟨e.intoInner⟩
  | .error .wouldBlock => .error ⟨()⟩

/-- `Mutex::get_mut`: `self.0.get_mut().unwrap_or_else(|e| e.into_inner())`. -/
def Mutex.getMut {T : Type} (m : Mutex T) : T :=
  unwrapOrElseIntoInner m.inner.getMutResult

/-- `MutexGuard::deref`: delegates to the wrapped std guard. -/
def MutexGuard.deref {T : Type} (g : MutexGuard T) : T :=
  g.inner.deref

/-- `MutexGuard::deref_mut`: delegates to the wrapped std guard. -/
def MutexGuard.derefMut {T : Type} (g : MutexGuard T) : T :=
  g.inner.derefMut

/-- Simulated abandonment of a `Mutex`: a holder panicked while holding the
lock, leaving the protected value as it was and setting the poison flag. -/
def Mutex.abandon {T : Type} (m : Mutex T) : Mutex T :=
  ⟨⟨m.inner.data, true⟩⟩

/-- Observable state of a `std::sync::RwLock<T>`: the protected value and the
poison flag (set only when a writer panicked while holding the lock). -/
structure SyncRwLock (T : Type) where
  data : T
  poisoned : Bool

/-- Model of `std::sync::RwLockReadGuard<'a, T>`. -/
structure SyncRwLockReadGuard (T : Type) where
  value : T

/-- `std::sync::RwLockReadGuard::deref`. -/
def SyncRwLockReadGuard.deref {T : Type} (g : SyncRwLockReadGuard T) : T :=
  g.value

/-- Model of `std::sync::RwLockWriteGuard<'a, T>`. -/
structure SyncRwLockWriteGuard (T : Type) where
  value : T

/-- `std::sync::RwLockWriteGuard::deref`. -/
def SyncRwLockWriteGuard.deref {T : Type} (g : SyncRwLockWriteGuard T) : T :=
  g.value

/-- `std::sync::RwLockWriteGuard::deref_mut` (same reference, write access). -/
def SyncRwLockWriteGuard.derefMut {T : Type} (g : SyncRwLockWriteGuard T) : T :=
  g.value

/-- `std::sync::RwLock::new`. -/
def SyncRwLock.new {T : Type} (t : T) : SyncRwLock T :=
  ⟨t, false⟩

/-- Outcome of `std::sync::RwLock::read` once shared access is granted. -/
def SyncRwLock.readResult {T : Type} (m : SyncRwLock T) :
    LockResult (SyncRwLockReadGuard T) :=
  if m.poisoned then .error ⟨⟨m.data⟩⟩ else .ok ⟨m.data⟩

/-- Outcome of `std::sync::RwLock::try_read`; `blocked` records whether a
writer currently excludes shared access. -/
def SyncRwLock.tryReadResult {T : Type} (m : SyncRwLock T) (blocked : Bool) :
    SyncTryLockResult (SyncRwLockReadGuard T) :=
  if blocked then .error .wouldBlock
  else if m.poisoned then .error (.poisoned ⟨⟨m.data⟩⟩)
  else .ok ⟨m.data⟩

/-- Outcome of `std::sync::RwLock::write` once exclusive access is granted. -/
def SyncRwLock.writeResult {T : Type} (m : SyncRwLock T) :
    LockResult (SyncRwLockWriteGuard T) :=
  if m.poisoned then .error ⟨⟨m.data⟩⟩ else .ok ⟨m.data⟩

/-- Outcome of `std::sync::RwLock::try_write`; `blocked` records whether any
current reader or writer excludes exclusive access. -/
def SyncRwLock.tryWriteResult {T : Type} (m : SyncRwLock T) (blocked : Bool) :
    SyncTryLockResult (SyncRwLockWriteGuard T) :=
  if blocked then .error .wouldBlock
  else if m.poisoned then .error (.poisoned ⟨⟨m.data⟩⟩)
  else .ok ⟨m.data⟩

/-- Outcome of `std::sync::RwLock::into_inner` (consumes the lock). -/
def SyncRwLock.intoInnerResult {T : Type} (m : SyncRwLock T) : LockResult T :=
  if m.poisoned then .error ⟨m.data⟩ else .ok m.data

/-- Outcome of `std::sync::RwLock::get_mut`: exclusive borrow of the lock
rules out contention, so the result depends only on the poison flag. -/
def SyncRwLock.getMutResult {T : Type} (m : SyncRwLock T) : LockResult T :=
  if m.poisoned then .error ⟨m.data⟩ else .ok m.data

/-- `antidote::RwLock<T>`: `pub struct RwLock<T>(sync::RwLock<T>)`. -/
structure RwLock (T : Type) where
  inner : SyncRwLock T

/-- `antidote::RwLockReadGuard<'a, T>`. -/
structure RwLockReadGuard (T : Type) where
  inner : SyncRwLockReadGuard T

/-- `antidote::RwLockWriteGuard<'a, T>`. -/
structure RwLockWriteGuard (T : Type) where
  inner : SyncRwLockWriteGuard T

/-- `RwLock::new`: `RwLock(sync::RwLock::new(t))`. -/
def RwLock.new {T : Type} (t : T) : RwLock T :=
  ⟨SyncRwLock.new t⟩

/-- `RwLock::into_inner`: `self.0.into_inner().unwrap_or_else(|e| e.into_inner())`. -/
def RwLock.intoInner {T : Type} (m : RwLock T) : T :=
  unwrapOrElseIntoInner m.inner.intoInnerResult

/-- `RwLock::read`: `RwLockReadGuard(self.0.read().unwrap_or_else(|e| e.into_inner()))`. -/
def RwLock.read {T : Type} (m : RwLock T) : RwLockReadGuard T :=
  ⟨unwrapOrElseIntoInner m.inner.readResult⟩

/-- `RwLock::try_read`: matches on the underlying result, recovering the
guard from a poison report and mapping `WouldBlock` to `TryLockError(())`. -/
def RwLock.tryRead {T : Type} (m : RwLock T) (blocked : Bool) :
    TryLockResult (RwLockReadGuard T) :=
  match m.inner.tryReadResult blocked with
  | .ok t => .ok ⟨t⟩
  | .error (.poisoned e) => .ok ⟨e.intoInner⟩
  | .error .wouldBlock => .error ⟨()⟩

/-- `RwLock::write`: `RwLockWriteGuard(self.0.write().unwrap_or_else(|e| e.into_inner()))`. -/
def RwLock.write {T : Type} (m : RwLock T) : RwLockWriteGuard T :=
  ⟨unwrapOrElseIntoInner m.inner.writeResult⟩

/-- `RwLock::try_write`: matches on the underlying result, recovering the
guard from a poison report and mapping `WouldBlock` to `TryLockError(())`. -/
def RwLock.tryWrite {T : Type} (m : RwLock T) (blocked : Bool) :
    TryLockResult (RwLockWriteGuard T) :=
  match m.inner.tryWriteResult blocked with
  | .ok t => .ok ⟨t⟩
  | .error (.poisoned e) => .ok ⟨e.intoInner⟩
  | .error .wouldBlock => .error ⟨()⟩

/-- `RwLock::get_mut`: `self.0.get_mut().unwrap_or_else(|e| e.into_inner())`. -/
def RwLock.getMut {T : Type} (m : RwLock T) : T :=
  unwrapOrElseIntoInner m.inner.getMutResult

/-- `RwLockReadGuard::deref`: delegates to the wrapped std guard. -/
def RwLockReadGuard.deref {T : Type} (g : RwLockReadGuard T) : T :=
  g.inner.deref

/-- `RwLockWriteGuard::deref`: delegates to the wrapped std guard. -/
def RwLockWriteGuard.deref {T : Type} (g : RwLockWriteGuard T) : T :=
  g.inner.deref

/-- `RwLockWriteGuard::deref_mut`: delegates to the wrapped std guard. -/
def RwLockWriteGuard.derefMut {T : Type} (g : RwLockWriteGuard T) : T :=
  g.inner.derefMut

/-- Simulated abandonment of an `RwLock`: a writer panicked while holding the
lock, leaving the protected value as it was and setting the poison flag. -/
def RwLock.abandon {T : Type} (m : RwLock T) : RwLock T :=
  ⟨⟨m.inner.data, true⟩⟩

/-- Model of `std::sync::WaitTimeoutResult` (re-exported by the crate):
records whether the wait timed out without an observed notification. -/
structure WaitTimeoutResult where
  timedOut : Bool

/-- `WaitTimeoutResult::timed_out`. -/
def WaitTimeoutResult.timed_out (r : WaitTimeoutResult) : Bool :=
  r.timedOut

/-- Model of `std::sync::Condvar`: a coordination object with no owned data. -/
structure SyncCondvar where
  unit : Unit

/-- `std::sync::Condvar::new`. -/
def SyncCondvar.new : SyncCondvar :=
  ⟨()⟩

/-- Outcome of `std::sync::Condvar::wait`: the consumed guard's lock is
released, the thread blocks, and on wake the lock is reacquired; `woken` is
the state of the mutex at reacquisition. -/
def SyncCondvar.waitResult {T : Type} (_ : SyncCondvar) (_ : SyncMutexGuard T)
    (woken : SyncMutex T) : LockResult (SyncMutexGuard T) :=
  if woken.poisoned then .error ⟨⟨woken.data⟩⟩ else .ok ⟨woken.data⟩

/-- Outcome of `std::sync::Condvar::wait_timeout`: as `waitResult` but paired
with the timeout report; a poison error carries the same pair as payload. -/
def SyncCondvar.waitTimeoutResult {T : Type} (_ : SyncCondvar) (_ : SyncMutexGuard T)
    (woken : SyncMutex T) (timedOut : Bool) :
    LockResult (SyncMutexGuard T × WaitTimeoutResult) :=
  if woken.poisoned then .error ⟨(⟨woken.data⟩, ⟨timedOut⟩)⟩
  else .ok (⟨woken.data⟩, ⟨timedOut⟩)

/-- `antidote::Condvar`: `pub struct Condvar(sync::Condvar)`. -/
structure Condvar where
  inner : SyncCondvar

/-- `Condvar::new`: `Condvar(sync::Condvar::new())`. -/
def Condvar.new : Condvar :=
  ⟨SyncCondvar.new⟩

/-- `Condvar::wait`:
`MutexGuard(self.0.wait(guard.0).unwrap_or_else(|e| e.into_inner()))`. -/
def Condvar.wait {T : Type} (c : Condvar) (guard : MutexGuard T)
    (woken : SyncMutex T) : MutexGuard T :=
  ⟨unwrapOrElseIntoInner (c.inner.waitResult guard.inner woken)⟩

/-- `Condvar::wait_timeout`: destructures the recovered pair and rewraps the
guard, returning the `WaitTimeoutResult` unchanged. -/
def Condvar.waitTimeout {T : Type} (c : Condvar) (guard : MutexGuard T)
    (woken : SyncMutex T) (timedOut : Bool) :
    MutexGuard T × WaitTimeoutResult :=
  match unwrapOrElseIntoInner (c.inner.waitTimeoutResult guard.inner woken timedOut) with
  | (g, result) => (⟨g⟩, result)

/-- Derived `Default` for `Mutex<T>` (given `d`, the `T::default()` value):
`Mutex(sync::Mutex::default())`, and `sync::Mutex::default()` is
`sync::Mutex::new(T::default())`. -/
def Mutex.defaultOf {T : Type} (d : T) : Mutex T :=
  ⟨⟨d, false⟩⟩

/-- Derived `Default` for `RwLock<T>` (given `d`, the `T::default()` value). -/
def RwLock.defaultOf {T : Type} (d : T) : RwLock T :=
  ⟨⟨d, false⟩⟩

/-- Derived `Default` for `Condvar`: `Condvar(sync::Condvar::default())`. -/
def Condvar.defaultOf : Condvar :=
  ⟨⟨()⟩⟩

/-! ## Helper lemmas -/

/-- The recovery step returns the poison payload when the primitive errs. -/
theorem unwrapOrElseIntoInner_error {G : Type} (r : LockResult G) (e : PoisonError G)
    (h : r = .error e) : unwrapOrElseIntoInner r = e.intoInner := by
  subst h
  rfl

/-- The recovery step is the identity on a clean result. -/
theorem unwrapOrElseIntoInner_ok {G : Type} (r : LockResult G) (g : G)
    (h : r = .ok g) : unwrapOrElseIntoInner r = g := by
  subst h
  rfl

/-- `Mutex::lock` always yields a guard over the stored data, poisoned or not. -/
theorem Mutex.lock_eq {T : Type} (m : Mutex T) : m.lock = ⟨⟨m.inner.data⟩⟩ := by
  obtain ⟨⟨d, p⟩⟩ := m
  cases p <;> rfl

/-- `RwLock::read` always yields a guard over the stored data. -/
theorem RwLock.read_eq {T : Type} (m : RwLock T) : m.read = ⟨⟨m.inner.data⟩⟩ := by
  obtain ⟨⟨d, p⟩⟩ := m
  cases p <;> rfl

/-- `RwLock::write` always yields a guard over the stored data. -/
theorem RwLock.write_eq {T : Type} (m : RwLock T) : m.write = ⟨⟨m.inner.data⟩⟩ := by
  obtain ⟨⟨d, p⟩⟩ := m
  cases p <;> rfl

/-! ## Claims -/

/-- C1: Every blocking acquisition (`Mutex::lock`, `RwLock::read`,
`RwLock::write`) is infallible: its return type is a plain guard with no
error alternative, and whenever the underlying std primitive reports a
poisoned state, the operation returns the guard extracted from the poison
payload as a normal successful result. -/
theorem blocking_acquisitions_infallible {T : Type} (m : Mutex T) (rw : RwLock T) :
    (∀ e, m.inner.lockResult = .error e → m.lock = ⟨e.intoInner⟩) ∧
    (∀ e, rw.inner.readResult = .error e → rw.read = ⟨e.intoInner⟩) ∧
    (∀ e, rw.inner.writeResult = .error e → rw.write = ⟨e.intoInner⟩) ∧
    m.lock = ⟨⟨m.inner.data⟩⟩ ∧
    rw.read = ⟨⟨rw.inner.data⟩⟩ ∧
    rw.write = ⟨⟨rw.inner.data⟩⟩ := by
  refine ⟨?_, ?_, ?_, Mutex.lock_eq m, RwLock.read_eq rw, RwLock.write_eq rw⟩
  · intro e he
    show (⟨unwrapOrElseIntoInner m.inner.lockResult⟩ : MutexGuard T) = ⟨e.intoInner⟩
    rw [unwrapOrElseIntoInner_error _ _ he]
  · intro e he
    show (⟨unwrapOrElseIntoInner rw.inner.readResult⟩ : RwLockReadGuard T) = ⟨e.intoInner⟩
    rw [unwrapOrElseIntoInner_error _ _ he]
  · intro e he
    show (⟨unwrapOrElseIntoInner rw.inner.writeResult⟩ : RwLockWriteGuard T) = ⟨e.intoInner⟩
    rw [unwrapOrElseIntoInner_error _ _ he]

/-- C1 witness: on a poisoned mutex and rwlock the blocking operations
return the guard recovered from the poison payload. -/
theorem blocking_acquisitions_infallible_witness :
    (Mutex.lock ⟨⟨7, true⟩⟩ = ⟨(⟨⟨7⟩⟩ : PoisonError (SyncMutexGuard Nat)).intoInner⟩) ∧
    (RwLock.read ⟨⟨5, true⟩⟩ = ⟨(⟨⟨5⟩⟩ : PoisonError (SyncRwLockReadGuard Nat)).intoInner⟩) ∧
    (RwLock.write ⟨⟨5, true⟩⟩ = ⟨(⟨⟨5⟩⟩ : PoisonError (SyncRwLockWriteGuard Nat)).intoInner⟩) := by
  have h := blocking_acquisitions_infallible (⟨⟨7, true⟩⟩ : Mutex Nat) (⟨⟨5, true⟩⟩ : RwLock Nat)
  exact ⟨h.1 ⟨⟨7⟩⟩ rfl, h.2.1 ⟨⟨5⟩⟩ rfl, h.2.2.1 ⟨⟨5⟩⟩ rfl⟩

/-- C2: For every non-blocking acquisition (`Mutex::try_lock`,
`RwLock::try_read`, `RwLock::try_write`), the `Err(TryLockError)` outcome
occurs exactly when the underlying primitive reports `WouldBlock`, and a
poisoned report from the underlying primitive is turned into `Ok` carrying
the guard recovered from the poison payload. -/
theorem nonblocking_err_iff_wouldBlock {T : Type} (m : Mutex T) (rw : RwLock T)
    (held blockedR blockedW : Bool) :
    ((∃ err, m.tryLock held = .error err) ↔
      m.inner.tryLockResult held = .error .wouldBlock) ∧
    (∀ e, m.inner.tryLockResult held = .error (.poisoned e) →
      m.tryLock held = .ok ⟨e.intoInner⟩) ∧
    ((∃ err, rw.tryRead blockedR = .error err) ↔
      rw.inner.tryReadResult blockedR = .error .wouldBlock) ∧
    (∀ e, rw.inner.tryReadResult blockedR = .error (.poisoned e) →
      rw.tryRead blockedR = .ok ⟨e.intoInner⟩) ∧
    ((∃ err, rw.tryWrite blockedW = .error err) ↔
      rw.inner.tryWriteResult blockedW = .error .wouldBlock) ∧
    (∀ e, rw.inner.tryWriteResult blockedW = .error (.poisoned e) →
      rw.tryWrite blockedW = .ok ⟨e.intoInner⟩) := by
  obtain ⟨⟨d, p⟩⟩ := m
  obtain ⟨⟨d2, q⟩⟩ := rw
  cases p <;> cases q <;> cases held <;> cases blockedR <;> cases blockedW <;>
    simp [Mutex.tryLock, RwLock.tryRead, RwLock.tryWrite, SyncMutex.tryLockResult,
      SyncRwLock.tryReadResult, SyncRwLock.tryWriteResult, PoisonError.intoInner] <;>
    exact ⟨⟨()⟩, trivial⟩

/-- C2 witness: with no current contention, a poisoned primitive still lets
the non-blocking acquisitions succeed with the recovered guard. -/
theorem nonblocking_err_iff_wouldBlock_witness :
    (Mutex.tryLock ⟨⟨3, true⟩⟩ false = .ok ⟨(⟨⟨3⟩⟩ : PoisonError (SyncMutexGuard Nat)).intoInner⟩) ∧
    (RwLock.tryRead ⟨⟨4, true⟩⟩ false = .ok ⟨(⟨⟨4⟩⟩ : PoisonError (SyncRwLockReadGuard Nat)).intoInner⟩) ∧
    (RwLock.tryWrite ⟨⟨4, true⟩⟩ false = .ok ⟨(⟨⟨4⟩⟩ : PoisonError (SyncRwLockWriteGuard Nat)).intoInner⟩) := by
  have h := nonblocking_err_iff_wouldBlock (⟨⟨3, true⟩⟩ : Mutex Nat)
    (⟨⟨4, true⟩⟩ : RwLock Nat) false false false
  exact ⟨h.2.1 ⟨⟨3⟩⟩ rfl, h.2.2.2.1 ⟨⟨4⟩⟩ rfl, h.2.2.2.2.2 ⟨⟨4⟩⟩ rfl⟩

/-- C3: For every acquisition entry point (lock, try_lock, read, write,
try_read, try_write, wait, wait_timeout, get_mut, into_inner), the result
observed by the caller is identical whether the underlying primitive
returned the value cleanly or tagged as poisoned with the same payload: the
recovery step extracts the payload from either tag, so a clean acquisition
and a recovered one are indistinguishable. -/
theorem recovery_discards_distinction {T : Type} (x : T) (c : Condvar)
    (g : MutexGuard T) (timedOut : Bool) :
    Mutex.lock ⟨⟨x, false⟩⟩ = Mutex.lock ⟨⟨x, true⟩⟩ ∧
    Mutex.tryLock ⟨⟨x, false⟩⟩ false = Mutex.tryLock ⟨⟨x, true⟩⟩ false ∧
    Mutex.intoInner ⟨⟨x, false⟩⟩ = Mutex.intoInner ⟨⟨x, true⟩⟩ ∧
    Mutex.getMut ⟨⟨x, false⟩⟩ = Mutex.getMut ⟨⟨x, true⟩⟩ ∧
    RwLock.read ⟨⟨x, false⟩⟩ = RwLock.read ⟨⟨x, true⟩⟩ ∧
    RwLock.write ⟨⟨x, false⟩⟩ = RwLock.write ⟨⟨x, true⟩⟩ ∧
    RwLock.tryRead ⟨⟨x, false⟩⟩ false = RwLock.tryRead ⟨⟨x, true⟩⟩ false ∧
    RwLock.tryWrite ⟨⟨x, false⟩⟩ false = RwLock.tryWrite ⟨⟨x, true⟩⟩ false ∧
    RwLock.intoInner ⟨⟨x, false⟩⟩ = RwLock.intoInner ⟨⟨x, true⟩⟩ ∧
    RwLock.getMut ⟨⟨x, false⟩⟩ = RwLock.getMut ⟨⟨x, true⟩⟩ ∧
    c.wait g ⟨x, false⟩ = c.wait g ⟨x, true⟩ ∧
    c.waitTimeout g ⟨x, false⟩ timedOut = c.waitTimeout g ⟨x, true⟩ timedOut ∧
    (∀ v : T, unwrapOrElseIntoInner (.ok v) = unwrapOrElseIntoInner (.error ⟨v⟩)) :=
  ⟨rfl, rfl, rfl, rfl, rfl, rfl, rfl, rfl, rfl, rfl, rfl, rfl, fun _ => rfl⟩

/-- C4: Round-trip: for every value `x`, `Mutex::new(x).into_inner()`
returns exactly `x`, also when the poison flag was set by a simulated
abandonment before the call (the abandonment really sets the flag, and
`into_inner` extracts the value from the poison error instead of failing). -/
theorem mutex_new_intoInner_roundtrip {T : Type} (x : T) :
    (Mutex.new x).intoInner = x ∧
    ((Mutex.new x).abandon).intoInner = x ∧
    ((Mutex.new x).abandon).inner.poisoned = true ∧
    ((Mutex.new x).abandon).inner.intoInnerResult = .error ⟨x⟩ :=
  ⟨rfl, rfl, rfl, rfl⟩

/-- C5: After an abandonment (poison flag set, protected value left as the
abandoning holder left it), every subsequent `lock`/`read`/`write` succeeds
with a valid guard whose dereference is exactly that left-behind value; on
any state, the guards produced by the wrapper carry exactly the stored data,
so the wrapper never alters the contained value on an acquisition path. -/
theorem abandoned_lock_remains_usable {T : Type} (m : Mutex T) (rw : RwLock T) :
    (m.abandon).lock.deref = m.inner.data ∧
    (m.abandon).lock.derefMut = m.inner.data ∧
    (rw.abandon).read.deref = rw.inner.data ∧
    (rw.abandon).write.deref = rw.inner.data ∧
    (rw.abandon).write.derefMut = rw.inner.data ∧
    m.lock.deref = m.inner.data ∧
    rw.read.deref = rw.inner.data ∧
    rw.write.deref = rw.inner.data := by
  refine ⟨rfl, rfl, rfl, rfl, rfl, ?_, ?_, ?_⟩
  · rw [Mutex.lock_eq]
    rfl
  · rw [RwLock.read_eq]
    rfl
  · rw [RwLock.write_eq]
    rfl

/-- C6: `Condvar::wait` never fails and always returns the reacquired guard;
`Condvar::wait_timeout` never fails and returns the reacquired guard paired
with the `WaitTimeoutResult`; both apply the same poison recovery on
reacquisition, and in particular `wait_timeout` passes the underlying
primitive's timeout outcome through unchanged even when the mutex was found
poisoned at reacquisition. -/
theorem condvar_wait_applies_recovery {T : Type} (c : Condvar) (g : MutexGuard T)
    (woken : SyncMutex T) (timedOut : Bool) :
    c.wait g woken = ⟨⟨woken.data⟩⟩ ∧
    c.waitTimeout g woken timedOut = (⟨⟨woken.data⟩⟩, ⟨timedOut⟩) ∧
    ((c.waitTimeout g woken timedOut).2).timed_out = timedOut ∧
    (∀ e, c.inner.waitResult g.inner woken = .error e →
      c.wait g woken = ⟨e.intoInner⟩) := by
  obtain ⟨d, p⟩ := woken
  cases p
  · exact ⟨rfl, rfl, rfl, by intro e he; cases he⟩
  · refine ⟨rfl, rfl, rfl, ?_⟩
    intro e he
    cases he
    rfl

/-- C6 witness: waking on a poisoned mutex still returns the guard and the
unchanged timeout outcome. -/
theorem condvar_wait_applies_recovery_witness :
    (Condvar.new.wait ⟨⟨0⟩⟩ ⟨6, true⟩ = ⟨⟨6⟩⟩) ∧
    (Condvar.new.waitTimeout ⟨⟨0⟩⟩ ⟨6, true⟩ true = (⟨⟨6⟩⟩, ⟨true⟩)) ∧
    (Condvar.new.wait ⟨⟨0⟩⟩ ⟨6, true⟩ =
      ⟨(⟨⟨6⟩⟩ : PoisonError (SyncMutexGuard Nat)).intoInner⟩) := by
  have h := condvar_wait_applies_recovery Condvar.new (⟨⟨0⟩⟩ : MutexGuard Nat) ⟨6, true⟩ true
  exact ⟨h.1, h.2.1, h.2.2.2 ⟨⟨6⟩⟩ rfl⟩

/-- C7: `TryLockError` carries no payload beyond its kind (any two values of
the type are equal), and its `Display` rendering is exactly the fixed string
"lock call failed because the operation would block" for every value. -/
theorem tryLockError_no_payload_fixed_display (e1 e2 : TryLockError) :
    e1 = e2 ∧
    e1.display = "lock call failed because the operation would block" := by
  obtain ⟨⟨⟩⟩ := e1
  obtain ⟨⟨⟩⟩ := e2
  exact ⟨rfl, rfl⟩

/-- C8: `Mutex::get_mut` and `RwLock::get_mut` return the protected value
without any runtime lock acquisition (in the model they take no contention
input at all, unlike the try operations), and they apply the poison recovery
to any stored poison marker, so they never fail even on a
previously-abandoned lock. -/
theorem getMut_bypasses_primitive {T : Type} (m : Mutex T) (rw : RwLock T) :
    m.getMut = m.inner.data ∧
    rw.getMut = rw.inner.data ∧
    (m.abandon).getMut = m.inner.data ∧
    (rw.abandon).getMut = rw.inner.data ∧
    (∀ e, m.inner.getMutResult = .error e → m.getMut = e.intoInner) ∧
    (∀ e, rw.inner.getMutResult = .error e → rw.getMut = e.intoInner) := by
  obtain ⟨⟨d, p⟩⟩ := m
  obtain ⟨⟨d2, q⟩⟩ := rw
  cases p <;> cases q <;>
    refine ⟨rfl, rfl, rfl, rfl, ?_, ?_⟩ <;>
    intro e he <;> cases he <;> rfl

/-- C8 witness: on poisoned locks `get_mut` still returns the stored value,
extracted from the poison error payload. -/
theorem getMut_bypasses_primitive_witness :
    (Mutex.getMut ⟨⟨9, true⟩⟩ = (⟨9⟩ : PoisonError Nat).intoInner) ∧
    (RwLock.getMut ⟨⟨8, true⟩⟩ = (⟨8⟩ : PoisonError Nat).intoInner) := by
  have h := getMut_bypasses_primitive (⟨⟨9, true⟩⟩ : Mutex Nat) (⟨⟨8, true⟩⟩ : RwLock Nat)
  exact ⟨h.2.2.2.2.1 ⟨9⟩ rfl, h.2.2.2.2.2 ⟨8⟩ rfl⟩

/-- C9: Guard dereferencing delegates directly to the wrapped std guard: for
every `MutexGuard` and `RwLockWriteGuard`, `deref` and `deref_mut` yield
exactly the wrapped guard's reference (the protected value it holds), and
for every `RwLockReadGuard`, `deref` yields exactly that reference; in
particular a guard produced by an acquisition dereferences to the lock's
protected value. -/
theorem guard_deref_delegates {T : Type} (g : MutexGuard T) (r : RwLockReadGuard T)
    (w : RwLockWriteGuard T) (m : Mutex T) (rw : RwLock T) :
    g.deref = g.inner.deref ∧
    g.derefMut = g.inner.derefMut ∧
    g.deref = g.inner.value ∧
    g.derefMut = g.inner.value ∧
    r.deref = r.inner.deref ∧
    r.deref = r.inner.value ∧
    w.deref = w.inner.deref ∧
    w.derefMut = w.inner.derefMut ∧
    w.deref = w.inner.value ∧
    w.derefMut = w.inner.value ∧
    m.lock.deref = m.inner.data ∧
    rw.read.deref = rw.inner.data ∧
    rw.write.deref = rw.inner.data := by
  refine ⟨rfl, rfl, rfl, rfl, rfl, rfl, rfl, rfl, rfl, rfl, ?_, ?_, ?_⟩
  · rw [Mutex.lock_eq]
    rfl
  · rw [RwLock.read_eq]
    rfl
  · rw [RwLock.write_eq]
    rfl

/-- C10: `Mutex<T>`, `RwLock<T>` and `Condvar` implement `Default` (derived):
given `d` for `T::default()`, `Mutex::<T>::default()` contains exactly `d`,
so `Mutex::<T>::default().into_inner()` equals `d`; likewise for
`RwLock::<T>::default()`; and `Condvar::default()` equals `Condvar::new()`. -/
theorem default_impls_match_new {T : Type} (d : T) :
    Mutex.defaultOf d = Mutex.new d ∧
    (Mutex.defaultOf d).intoInner = d ∧
    RwLock.defaultOf d = RwLock.new d ∧
    (RwLock.defaultOf d).intoInner = d ∧
    Condvar.defaultOf = Condvar.new :=
  ⟨rfl, rfl, rfl, rfl, rfl⟩

end Antidote
